import Mathlib

/-!
Verification of the md-to-qdrant-importer ingestion pipeline.

Shallow embedding of the pipeline's core (text chunking, collection routing,
NPC candidate detection, structured extraction filtering, and the per-file /
per-directory orchestration) as executable Lean definitions, followed by
theorems settling the specified behaviours.

Modelling conventions:
* Python strings are `String` / `List Char`; Python ints are `Int`/`Nat`;
  Python floats that carry exact decimal configuration values are `ℚ`.
* Dynamically-typed Python values (JSON data, dict payload fields) are the
  inductive `Value`; Python dicts are association lists built left-to-right
  with later keys overriding earlier ones, as in a `{..., **m}` literal.
* External effects (file reads, the embedding provider, the vector store's
  transport, the extraction service) are inputs: their outcomes are fields of
  an environment record, while everything computed by the repository's own
  code is embedded directly from the source.
* Exceptions are `Except String`; a Python `try/except` block is a `match` on
  the embedded result.
-/

namespace MdImport

/-- Dynamically-typed Python/JSON value (the subset the pipeline handles). -/
inductive Value where
  | null
  | bool (b : Bool)
  | int (n : Int)
  | num (q : ℚ)
  | str (s : String)
  | arr (l : List Value)
  | obj (l : List (String × Value))
  deriving Repr

mutual

/-- Structural decidable equality for `Value`. -/
def Value.beq : Value → Value → Bool
  | .null, .null => true
  | .bool a, .bool b => a == b
  | .int a, .int b => a == b
  | .num a, .num b => a == b
  | .str a, .str b => a == b
  | .arr a, .arr b => Value.beqList a b
  | .obj a, .obj b => Value.beqObj a b
  | _, _ => false

/-- Elementwise equality of `Value` lists. -/
def Value.beqList : List Value → List Value → Bool
  | [], [] => true
  | a :: as, b :: bs => Value.beq a b && Value.beqList as bs
  | _, _ => false

/-- Elementwise equality of key/value pair lists. -/
def Value.beqObj : List (String × Value) → List (String × Value) → Bool
  | [], [] => true
  | (ka, va) :: as, (kb, vb) :: bs => ka == kb && Value.beq va vb && Value.beqObj as bs
  | _, _ => false

end

mutual

theorem Value.beq_eq : ∀ a b : Value, Value.beq a b = true → a = b
  | .null, .null, _ => rfl
  | .bool _, .bool _, h => by
      simp only [Value.beq, beq_iff_eq] at h; rw [h]
  | .int _, .int _, h => by
      simp only [Value.beq, beq_iff_eq] at h; rw [h]
  | .num _, .num _, h => by
      simp only [Value.beq, beq_iff_eq] at h; rw [h]
  | .str _, .str _, h => by
      simp only [Value.beq, beq_iff_eq] at h; rw [h]
  | .arr a, .arr b, h => by
      rw [Value.beqList_eq a b h]
  | .obj a, .obj b, h => by
      rw [Value.beqObj_eq a b h]

theorem Value.beqList_eq : ∀ a b : List Value, Value.beqList a b = true → a = b
  | [], [], _ => rfl
  | x :: xs, y :: ys, h => by
      simp only [Value.beqList, Bool.and_eq_true] at h
      rw [Value.beq_eq x y h.1, Value.beqList_eq xs ys h.2]

theorem Value.beqObj_eq :
    ∀ a b : List (String × Value), Value.beqObj a b = true → a = b
  | [], [], _ => rfl
  | (ka, va) :: xs, (kb, vb) :: ys, h => by
      simp only [Value.beqObj, Bool.and_eq_true, beq_iff_eq] at h
      rw [h.1.1, Value.beq_eq va vb h.1.2, Value.beqObj_eq xs ys h.2]

end

mutual

theorem Value.beq_refl : ∀ a : Value, Value.beq a a = true
  | .null => rfl
  | .bool _ => by simp [Value.beq]
  | .int _ => by simp [Value.beq]
  | .num _ => by simp [Value.beq]
  | .str _ => by simp [Value.beq]
  | .arr a => Value.beqList_refl a
  | .obj a => Value.beqObj_refl a

theorem Value.beqList_refl : ∀ a : List Value, Value.beqList a a = true
  | [] => rfl
  | x :: xs => by
      simp only [Value.beqList, Bool.and_eq_true]
      exact ⟨Value.beq_refl x, Value.beqList_refl xs⟩

theorem Value.beqObj_refl : ∀ a : List (String × Value), Value.beqObj a a = true
  | [] => rfl
  | (k, v) :: xs => by
      simp only [Value.beqObj, Bool.and_eq_true, beq_self_eq_true]
      exact ⟨⟨trivial, Value.beq_refl v⟩, Value.beqObj_refl xs⟩

end

instance : DecidableEq Value := fun a b =>
  if h : Value.beq a b = true then
    isTrue (Value.beq_eq a b h)
  else
    isFalse (fun he => h (he ▸ Value.beq_refl a))

/-- A Python dict, as an association list with unique keys maintained by
`dictInsert`. -/
abbrev PyDict := List (String × Value)

/-- Insert a key into a dict: replace in place when the key exists, append
otherwise (Python dict assignment / `**` merge semantics). -/
def dictInsert (d : PyDict) (k : String) (v : Value) : PyDict :=
  if d.any (fun kv => kv.1 == k) then
    d.map (fun kv => if kv.1 == k then (k, v) else kv)
  else
    d ++ [(k, v)]

/-- Build a dict from a pair list, later pairs overriding earlier ones, as a
Python dict literal `{k1: v1, ..., **m}` does. -/
def pyDictOf (pairs : List (String × Value)) : PyDict :=
  pairs.foldl (fun d kv => dictInsert d kv.1 kv.2) []

/-- `d.get(k)` / `d[k]` lookup, `none` when the key is absent. -/
def dictGet? (d : PyDict) (k : String) : Option Value :=
  (d.find? (fun kv => kv.1 == k)).map (·.2)

/-- `d.get(k, default)`. -/
def dictGetD (d : PyDict) (k : String) (v₀ : Value) : Value :=
  (dictGet? d k).getD v₀

/-- Whitespace in the sense of Python `str.strip()`. -/
def pyIsSpace (c : Char) : Bool :=
  c == ' ' || c == '\t' || c == '\n' || c == '\r' || c == '\x0b' || c == '\x0c'

/-- Python `str.strip()`. -/
def pyStrip (s : List Char) : List Char :=
  ((s.dropWhile pyIsSpace).reverse.dropWhile pyIsSpace).reverse

/-- Python slice `s[a:b]` (with the usual clamping). -/
def pySlice (s : List Char) (a b : Nat) : List Char :=
  (s.take b).drop a

/-- Does `sub` occur in `s` starting exactly at position `p`? -/
def matchesAt (s sub : List Char) (p : Nat) : Bool :=
  decide ((s.drop p).take sub.length = sub)

/-- Python `s.rfind(sub, lo, hi)`: the highest position `p` with `lo ≤ p`,
`p + sub.length ≤ hi` and `sub` occurring at `p`; `none` when there is no such
position (Python returns -1). -/
def pyRfind (s sub : List Char) (lo hi : Nat) : Option Nat :=
  ((List.range' lo (hi + 1 - sub.length - lo)).filter (matchesAt s sub)).getLast?

/-- Python `sub in s` substring test. -/
def strContains (s sub : List Char) : Bool :=
  (List.range (s.length + 1)).any (fun p => matchesAt s sub p)

/-- Python `str.lower()` (ASCII range; the filenames routed by this pipeline
are ASCII). -/
def pyLower (s : String) : String :=
  String.mk (s.data.map Char.toLower)

/-! ## TextChunker (src/text_processor.py, `TextChunker.chunk_text` /
`TextChunker.create_chunks`) -/

/-- The sentence-end markers of `chunk_text`, in the order the source tries
them. -/
def sentenceEnds : List (List Char) :=
  [['.', ' '], ['!', ' '], ['?', ' '], ['\n', '\n']]

/-- The marker loop of `chunk_text`: the first marker (in order) that
`rfind` locates in `[lo, hi)` yields the break position `pos + len(marker) - 1`;
marker hits are strictly below `hi`, so a hit is exactly the source's
`best_break != end` case. -/
def findSentenceBreak (s : List Char) (lo hi : Nat) : List (List Char) → Option Nat
  | [] => none
  | m :: ms =>
    match pyRfind s m lo hi with
    | some p => some (p + m.length - 1)
    | none => findSentenceBreak s lo hi ms

/-- One iteration of the `while start < text_length` loop of
`TextChunker.chunk_text`: returns the stripped chunk cut at this position and
the next cursor value. -/
def chunkStep (chunkSize overlap : Nat) (s : List Char) (start : Nat) :
    List Char × Nat :=
  let tl := s.length
  let e0 := min (start + chunkSize) tl
  let e :=
    if e0 < tl then
      match findSentenceBreak s (start + overlap) e0 sentenceEnds with
      | some bb => bb
      | none =>
        match pyRfind s [' '] (start + overlap) e0 with
        | some sp => sp
        | none => e0
    else e0
  (pyStrip (pySlice s start e), if e < tl then e - overlap else tl)

/-- The chunking loop, fuel-indexed: `none` means the fuel ran out with the
cursor still inside the text, i.e. the Python loop has not terminated within
that many iterations. -/
def chunkLoop (chunkSize overlap : Nat) (s : List Char) :
    Nat → Nat → Option (List (List Char))
  | 0, start => if start < s.length then none else some []
  | fuel + 1, start =>
    if start < s.length then
      match chunkLoop chunkSize overlap s fuel (chunkStep chunkSize overlap s start).2 with
      | none => none
      | some rest =>
        some (if (chunkStep chunkSize overlap s start).1.isEmpty then rest
              else (chunkStep chunkSize overlap s start).1 :: rest)
    else some []

/-- `TextChunker.chunk_text`. A strictly increasing cursor visits at most
`s.length` positions below `s.length`, so `s.length + 1` iterations suffice
whenever the loop makes progress; `none` therefore means the source loop runs
forever (the cursor repeats a position: `chunkStep` is a function of the
cursor alone). An empty text short-circuits to `[]` exactly as in the source. -/
def chunk_text (chunkSize overlap : Nat) (s : List Char) :
    Option (List (List Char)) :=
  chunkLoop chunkSize overlap s (s.length + 1) 0

/-- The chunk-dict construction of `TextChunker.create_chunks`: one dict per
text chunk, built by the literal
`{'text': ..., 'chunk_index': i, 'total_chunks': len(text_chunks), **metadata}`
(so a metadata key with the same name overrides the positional field). -/
def mkChunkDicts (textChunks : List (List Char)) (metadata : List (String × Value)) :
    List PyDict :=
  textChunks.enum.map (fun ic =>
    pyDictOf ([("text", Value.str (String.mk ic.2)),
               ("chunk_index", Value.int ic.1),
               ("total_chunks", Value.int textChunks.length)] ++ metadata))

/-- `TextChunker.create_chunks` (metadata defaulting to `{}` is the caller
passing `[]`). -/
def create_chunks (chunkSize overlap : Nat) (text : List Char)
    (metadata : List (String × Value)) : Option (List PyDict) :=
  (chunk_text chunkSize overlap text).map (fun tcs => mkChunkDicts tcs metadata)

/-! ## Collection router (src/qdrant_handler_fixed.py,
`QdrantHandler.is_adventure_path` / `QdrantHandler.determine_collection`;
collection names from src/config.py). -/

/-- `config.qdrant_collection_adventurepaths = f"{prefix}_adventurepaths"`. -/
def collectionAdventurepaths (pfx : String) : String := pfx ++ "_adventurepaths"

/-- `config.qdrant_collection_rulebooks = f"{prefix}_rulebooks"`. -/
def collectionRulebooks (pfx : String) : String := pfx ++ "_rulebooks"

/-- `QdrantHandler.is_adventure_path`: `"adventure" in file_path.name.lower()`. -/
def is_adventure_path (fileName : String) : Bool :=
  strContains (pyLower fileName).data "adventure".data

/-- `QdrantHandler.determine_collection` (the fixed router, the one the spec
adopts): adventure paths go to the adventure-paths collection, everything else
to rulebooks. -/
def determine_collection (pfx fileName : String) : String :=
  if is_adventure_path fileName then collectionAdventurepaths pfx
  else collectionRulebooks pfx

/-! ## NPC candidate detector (src/npc_extractor.py,
`NPCExtractor._identify_npc_chunks`).

The source scores each chunk by running `re.search` for ten fixed stat-block
patterns and counting hits. The regex engine is an external library; its
per-chunk, per-pattern outcomes enter the embedding as a boolean row
`hits[j] = (re.search(npc_patterns[j], chunk) matched)`, one row of length 10
per chunk. Everything after those `re.search` calls — the `score >= 2`
qualification and the grouping loop — is embedded from the source. -/

/-- The `score` accumulation: number of patterns that matched a chunk. -/
def chunkPatternScore (hits : List Bool) : Nat :=
  hits.countP (fun b => b)

/-- The first loop of `_identify_npc_chunks`: indices of chunks with at least
two pattern matches, in order. -/
def potentialChunks (hitsMat : List (List Bool)) : List Nat :=
  (hitsMat.enum.filter (fun ih => decide (2 ≤ chunkPatternScore ih.2))).map (·.1)

/-- The grouping loop of `_identify_npc_chunks`: starting from
`current_group = [first]`, an index is appended to the current group when
`i - current_group[-1] <= 1`, otherwise the current group is flushed and a new
one started; the final group is appended at the end. -/
def groupLoop (current : List Nat) (acc : List (List Nat)) :
    List Nat → List (List Nat)
  | [] => acc ++ [current]
  | i :: rest =>
    if i - current.getLastD 0 ≤ 1 then groupLoop (current ++ [i]) acc rest
    else groupLoop [i] (acc ++ [current]) rest

/-- `NPCExtractor._identify_npc_chunks`, as a function of the pattern-hit
matrix. -/
def identify_npc_chunks (hitsMat : List (List Bool)) : List (List Nat) :=
  match potentialChunks hitsMat with
  | [] => []
  | p :: rest => groupLoop [p] [] rest

/-! ## Structured extractor (src/npc_extractor.py, `NPCData` /
`NPCExtractor._extract_npc_from_text`).

The Azure OpenAI call and `json.loads` are external; their combined outcome is
a `ServiceOutcome`. Everything after the parse — shape normalization,
confidence filtering, coercion onto `NPCData` and the enclosing
`try/except → []` — is embedded from the source. -/

/-- The `NPCData` dataclass. Dynamically-typed attribute values stay `Value`
(`Value.null` models Python `None` when a field is present but null; `none`
models an attribute left at its dataclass default). -/
structure NPCData where
  name : Value := Value.str "Unknown"
  description : Option Value := none
  level : Option Value := none
  hit_points : Option Value := none
  armor_class : Option Value := none
  strength : Option Value := none
  dexterity : Option Value := none
  constitution : Option Value := none
  intelligence : Option Value := none
  wisdom : Option Value := none
  charisma : Option Value := none
  skills : Value := Value.arr []
  abilities : Value := Value.arr []
  equipment : Value := Value.arr []
  attacks : Value := Value.arr []
  damage_resistances : Value := Value.arr []
  damage_immunities : Value := Value.arr []
  condition_immunities : Value := Value.arr []
  challenge_rating : Option Value := none
  experience_points : Option Value := none
  alignment : Option Value := none
  size : Option Value := none
  creature_type : Option Value := none
  force_sensitive : Option Value := none
  force_points : Option Value := none
  dark_side_points : Option Value := none
  character_points : Option Value := none
  source_file : Option String := none
  source_page : Option Value := none
  canonical : Bool := true
  game_system : Option Value := none
  confidence_score : ℚ := 1
  raw_text : Option String := none
  deriving Repr, DecidableEq

/-- Outcome of the service call plus `json.loads`, the two external effects
inside the `try` block of `_extract_npc_from_text`. -/
inductive ServiceOutcome where
  | transportError (msg : String)
  | parseError (msg : String)
  | parsed (v : Value)
  deriving Repr, DecidableEq

/-- The float literal `0.8` (the fallback for a missing confidence field),
in reduced constructor form so that comparisons on it evaluate by kernel
reduction. -/
def ratPoint8 : ℚ := ⟨4, 5, by decide, by decide⟩

/-- The float literal `0.7` (the default `NPC_CONFIDENCE_THRESHOLD`). -/
def ratPoint7 : ℚ := ⟨7, 10, by decide, by decide⟩

/-- The float literal `0.5`. -/
def ratPoint5 : ℚ := ⟨1, 2, by decide, by decide⟩

/-- Key membership for a parsed JSON object (`'npcs' in result`). -/
def objHasKey (l : List (String × Value)) (k : String) : Bool :=
  l.any (fun kv => kv.1 == k)

/-- The shape-normalization chain of `_extract_npc_from_text`:
`dict with 'npcs' → result['npcs']`, `list → result`,
`dict with 'name' → [result]`, anything else → `[]`. When `result['npcs']` is
not a list, iterating it as records fails in Python (`TypeError` /
`AttributeError` on its elements); that raise is the `.error` case here. -/
def normalizeShape (v : Value) : Except String (List Value) :=
  match v with
  | Value.obj l =>
    if objHasKey l "npcs" then
      match dictGet? l "npcs" with
      | some (Value.arr items) => .ok items
      | _ => .error "TypeError: value under npcs is not a record list"
    else if objHasKey l "name" then .ok [v]
    else .ok []
  | Value.arr items => .ok items
  | _ => .ok []

/-- `npc_dict.get('confidence_score', 0.8)` followed by the `<` comparison:
missing falls back to 0.8; a numeric (or boolean) value is comparable; any
other type makes the comparison raise `TypeError`. -/
def confidenceOf (d : PyDict) : Except String ℚ :=
  match dictGet? d "confidence_score" with
  | none => .ok ratPoint8
  | some (Value.num q) => .ok q
  | some (Value.int n) => .ok (n : ℚ)
  | some (Value.bool b) => .ok (if b then 1 else 0)
  | some _ => .error "TypeError: confidence is not comparable to the threshold"

/-- The `NPCData(...)` construction in the loop of `_extract_npc_from_text`
for a record that passed the confidence filter. -/
def npcFromDict (d : PyDict) (srcFile : String) (text : List Char) (conf : ℚ) :
    NPCData :=
  { name := dictGetD d "name" (Value.str "Unknown")
    description := dictGet? d "description"
    level := dictGet? d "level"
    hit_points := dictGet? d "hit_points"
    armor_class := dictGet? d "armor_class"
    strength := dictGet? d "strength"
    dexterity := dictGet? d "dexterity"
    constitution := dictGet? d "constitution"
    intelligence := dictGet? d "intelligence"
    wisdom := dictGet? d "wisdom"
    charisma := dictGet? d "charisma"
    skills := dictGetD d "skills" (Value.arr [])
    abilities := dictGetD d "abilities" (Value.arr [])
    equipment := dictGetD d "equipment" (Value.arr [])
    attacks := dictGetD d "attacks" (Value.arr [])
    challenge_rating := dictGet? d "challenge_rating"
    alignment := dictGet? d "alignment"
    size := dictGet? d "size"
    creature_type := dictGet? d "creature_type"
    force_sensitive := dictGet? d "force_sensitive"
    force_points := dictGet? d "force_points"
    dark_side_points := dictGet? d "dark_side_points"
    character_points := dictGet? d "character_points"
    source_file := some srcFile
    canonical := true
    game_system := dictGet? d "game_system"
    confidence_score := conf
    raw_text := some (String.mk (text.take 500)) }

/-- The `for npc_dict in npc_list` loop: records below the threshold are
skipped (`continue`); a non-record element or a non-comparable confidence
raises, aborting the whole window (the `.error` case, caught by the enclosing
`except`). -/
def convertNpcList (threshold : ℚ) (srcFile : String) (text : List Char) :
    List Value → Except String (List NPCData)
  | [] => .ok []
  | v :: rest =>
    match v with
    | Value.obj d =>
      match confidenceOf d with
      | .error e => .error e
      | .ok conf =>
        if conf < threshold then
          convertNpcList threshold srcFile text rest
        else
          match convertNpcList threshold srcFile text rest with
          | .error e => .error e
          | .ok npcs => .ok (npcFromDict d srcFile text conf :: npcs)
    | _ => .error "AttributeError: record element has no attribute get"

/-- The body of the `try` block of `_extract_npc_from_text` after the parse. -/
def extractBody (threshold : ℚ) (srcFile : String) (text : List Char)
    (v : Value) : Except String (List NPCData) :=
  match normalizeShape v with
  | .error e => .error e
  | .ok items => convertNpcList threshold srcFile text items

/-- `NPCExtractor._extract_npc_from_text`: any raise inside the `try` block —
transport error, `json.loads` failure, or a dynamic type error while
normalizing/converting — is caught by the `except` and yields `[]`. The
function is total: no error ever reaches the caller. -/
def extract_npc_from_text (threshold : ℚ) (srcFile : String) (text : List Char)
    (outcome : ServiceOutcome) : List NPCData :=
  match outcome with
  | .transportError _ => []
  | .parseError _ => []
  | .parsed v =>
    match extractBody threshold srcFile text v with
    | .error _ => []
    | .ok npcs => npcs

/-- Statement vocabulary: the confidence a candidate element reports (its
`get('confidence_score', 0.8)`), or an error for a non-record element. -/
def candConf (v : Value) : Except String ℚ :=
  match v with
  | Value.obj d => confidenceOf d
  | _ => .error "AttributeError: record element has no attribute get"

/-- Statement vocabulary: the source keeps a candidate iff its (fallback
completed) confidence is at least the threshold. -/
def keptB (threshold : ℚ) (v : Value) : Bool :=
  match candConf v with
  | .ok q => decide (threshold ≤ q)
  | .error _ => false

/-- Statement vocabulary: the `NPCData` a kept candidate is coerced to. -/
def mkNpc (srcFile : String) (text : List Char) (v : Value) : NPCData :=
  match v with
  | Value.obj d => npcFromDict d srcFile text ((confidenceOf d).toOption.getD 1)
  | _ => {}

/-- Statement vocabulary: the three response shapes the source accepts — a
record list, a wrapper object holding a list under `npcs`, or a single record
object carrying `name` (without an `npcs` key hijacking the first branch). -/
def goodShapeB (v : Value) : Bool :=
  match v with
  | Value.arr _ => true
  | Value.obj l =>
    if objHasKey l "npcs" then
      match dictGet? l "npcs" with
      | some (Value.arr _) => true
      | _ => false
    else objHasKey l "name"
  | _ => false

/-! ## Qdrant handler and orchestrator (src/qdrant_handler_fixed.py,
src/import_processor.py).

`ImportProcessor` composes the fixed `QdrantHandler` (the class offering
`is_adventure_path`, the one the spec adopts and `process_file` calls).
External-transport outcomes (file read, `generate_embeddings`,
`client.upsert`, `client.scroll` availability) are environment inputs; the
payload and filter construction, the extraction call's deterministic outcome,
branch structure and result assembly are embedded from the source. Qdrant's filter semantics follow the §6 store contract: a dot
path key `metadata.file_path` matches records whose payload `metadata` object
maps `file_path` to the given value. Wall-clock `processing_time` is outside
the embedding and is omitted from `ImportResult`. -/

/-- The relevant configuration fields (src/config.py defaults). -/
structure Config where
  chunk_size : Nat := 1000
  chunk_overlap : Nat := 200
  collectionPfx : String := "game"
  enable_npc_extraction : Bool := true
  npc_confidence_threshold : ℚ := ratPoint7
  deriving Repr

/-- The `ImportResult` dataclass (without the wall-clock field). -/
structure ImportResult where
  file_path : String
  success : Bool
  chunks_imported : Nat := 0
  npcs_extracted : Nat := 0
  collection_used : String := ""
  error : Option String := none
  skipped_npc_extraction : Bool := false
  skipped_existing : Bool := false
  deriving Repr, DecidableEq

/-- The payload stored per chunk by the fixed `QdrantHandler.insert_chunks`
(the vector itself is irrelevant to the claims and not carried). -/
structure Payload where
  text : Value
  file_path : String
  page_number : Value
  chunk_index : Value
  metadata : Value
  deriving Repr, DecidableEq

/-- The vector store: (collection, payload) records. -/
abbrev Store := List (String × Payload)

/-- The `ValueError` message of `insert_chunks` on a chunk/embedding count
mismatch. -/
def mismatchMsg (c e : Nat) : String :=
  "Mismatch: " ++ toString c ++ " chunks, " ++ toString e ++ " embeddings"

/-- The payload literal inside `insert_chunks`'s loop; `chunk["text"]` raises
`KeyError` when the key is absent. -/
def payloadOfChunk (ch : PyDict) (filePath : String) : Except String Payload :=
  match dictGet? ch "text" with
  | none => .error "KeyError: text"
  | some tv =>
    .ok { text := tv
          file_path := filePath
          page_number := dictGetD ch "page_number" Value.null
          chunk_index := dictGetD ch "chunk_index" Value.null
          metadata := dictGetD ch "metadata" (Value.obj []) }

/-- The fixed `QdrantHandler.insert_chunks`: raises on a count mismatch,
routes via `determine_collection`, builds one point per chunk, upserts
(outcome supplied), and returns the records to add plus `len(points)`. -/
def insert_chunks (pfx : String) (chunks : List PyDict) (embeddings : List Nat)
    (fileName filePath : String) (upsertOutcome : Except String Unit) :
    Except String (List (String × Payload) × Nat) :=
  if chunks.length ≠ embeddings.length then
    .error (mismatchMsg chunks.length embeddings.length)
  else
    match (chunks.zip embeddings).mapM (fun ce => payloadOfChunk ce.1 filePath) with
    | .error e => .error e
    | .ok points =>
      match upsertOutcome with
      | .error e => .error e
      | .ok _ =>
        .ok (points.map (fun p => (determine_collection pfx fileName, p)),
             points.length)

/-- Does a stored payload match the scroll filter
`key "metadata.file_path", match value fp`? (Dot-path field match on the
nested `metadata` object.) -/
def payloadMatchesMetadataFilePath (p : Payload) (fp : String) : Bool :=
  match p.metadata with
  | Value.obj m => decide (dictGet? m "file_path" = some (Value.str fp))
  | _ => false

/-- The scroll of `_file_already_imported`: records of the routed collection
matching the `metadata.file_path` filter, `limit=1`. -/
def scrollMetadataFilePath (db : Store) (collection fp : String) : List Payload :=
  ((db.filter (fun cp =>
      cp.1 == collection && payloadMatchesMetadataFilePath cp.2 fp)).map (·.2)).take 1

/-- `ImportProcessor._file_already_imported`: `len(result[0]) > 0`, with any
scroll exception (`scrollFails`) caught and turned into `False`. -/
def file_already_imported (scrollFails : Bool) (pfx : String) (db : Store)
    (fileName filePath : String) : Bool :=
  if scrollFails then false
  else
    decide (0 < (scrollMetadataFilePath db (determine_collection pfx fileName)
                  filePath).length)

/-- The fixed `QdrantHandler.insert_npcs`: returns 0 for an empty list;
otherwise the first loop iteration evaluates `npc.stats`, an attribute
`NPCData` does not define, so the call raises `AttributeError` before
anything is upserted. -/
def insert_npcs (npcs : List NPCData) : Except String Nat :=
  if npcs.isEmpty then .ok 0
  else .error "AttributeError: NPCData object has no attribute stats"

/-- `NPCExtractor.extract_npcs_from_chunks`, at the argument `process_file`
actually passes it: the chunk dicts from `create_chunks`, not their texts.
`_identify_npc_chunks` immediately runs `re.search(pattern, chunk)` on the
first chunk; with a dict argument `re.search` raises
`TypeError: expected string or bytes-like object`, so for a non-empty chunk
list the call raises deterministically before any service is contacted (the
per-window `try/except` sits deeper, inside `_extract_npc_from_text`, and is
never reached). An empty list skips every loop body and returns `[]`. -/
def extract_npcs_from_chunks (chunks : List PyDict) : Except String (List NPCData) :=
  if chunks.isEmpty then .ok []
  else .error "TypeError: expected string or bytes-like object"

/-- Per-file environment: the file's identity and the outcomes of the
external effects its processing performs. -/
structure FileEnv where
  fileName : String
  filePath : String
  readContent : Except String String
  scrollFails : Bool := false
  embedOutcome : Except String (List Nat) := .ok []
  upsertChunksOutcome : Except String Unit := .ok ()
  deriving Repr

/-- The `except`-branch result of `process_file` (and its "No chunks" early
return, which has the same shape). -/
def failedResult (filePath e : String) : ImportResult :=
  { file_path := filePath, success := false, error := some e }

/-- `ImportProcessor.process_file`. `none` models the Python call never
returning because `chunk_text` loops forever; every other path produces the
source's `ImportResult` and the store after any upserts. `parse_markdown`'s
value is unused by the source and pure, so it is not materialized. The NPC
branch condition `extract_npcs and self.npc_extractor and
self.config.enable_npc_extraction` collapses to
`extract_npcs && enable_npc_extraction` because `self.npc_extractor` is
constructed exactly when the flag is set. The extraction stage calls
`extract_npcs_from_chunks` on the chunk dicts themselves, so for the
non-empty chunk lists that reach it the call raises the deterministic
`TypeError` (see its definition) and the document is marked failed. -/
def process_file (cfg : Config) (env : FileEnv)
    (extract_npcs skip_if_exists : Bool) (db : Store) :
    Option (ImportResult × Store) :=
  if skip_if_exists &&
      file_already_imported env.scrollFails cfg.collectionPfx db
        env.fileName env.filePath then
    some ({ file_path := env.filePath, success := true,
            skipped_existing := true }, db)
  else
    match env.readContent with
    | .error e => some (failedResult env.filePath e, db)
    | .ok content =>
      match create_chunks cfg.chunk_size cfg.chunk_overlap content.data
          [("file_path", Value.str env.filePath)] with
      | none => none
      | some chunks =>
        if chunks.isEmpty then
          some (failedResult env.filePath "No chunks created from file", db)
        else
          match env.embedOutcome with
          | .error e => some (failedResult env.filePath e, db)
          | .ok embeddings =>
            match insert_chunks cfg.collectionPfx chunks embeddings
                env.fileName env.filePath env.upsertChunksOutcome with
            | .error e => some (failedResult env.filePath e, db)
            | .ok (points, chunksInserted) =>
              let db1 := db ++ points
              let collection := determine_collection cfg.collectionPfx env.fileName
              if is_adventure_path env.fileName then
                some ({ file_path := env.filePath, success := true,
                        chunks_imported := chunksInserted,
                        npcs_extracted := 0, collection_used := collection,
                        skipped_npc_extraction := true }, db1)
              else if extract_npcs && cfg.enable_npc_extraction then
                match extract_npcs_from_chunks chunks with
                | .error e => some (failedResult env.filePath e, db1)
                | .ok npcs =>
                  if npcs.isEmpty then
                    some ({ file_path := env.filePath, success := true,
                            chunks_imported := chunksInserted,
                            collection_used := collection }, db1)
                  else
                    match insert_npcs npcs with
                    | .error e => some (failedResult env.filePath e, db1)
                    | .ok n =>
                      some ({ file_path := env.filePath, success := true,
                              chunks_imported := chunksInserted,
                              npcs_extracted := n,
                              collection_used := collection }, db1)
              else
                some ({ file_path := env.filePath, success := true,
                        chunks_imported := chunksInserted,
                        collection_used := collection }, db1)

/-- `ImportProcessor.process_directory`: the enumerated files (in glob order,
as Python's `glob`/`rglob` yields them — the source applies no sort) are
processed sequentially, each appending exactly one result; the store is
threaded through. `none` models one file's chunking hanging the batch. -/
def process_directory (cfg : Config) (envs : List FileEnv)
    (extract_npcs skip_existing : Bool) (db : Store) :
    Option (List ImportResult × Store) :=
  match envs with
  | [] => some ([], db)
  | env :: rest =>
    match process_file cfg env extract_npcs skip_existing db with
    | none => none
    | some (r, db1) =>
      match process_directory cfg rest extract_npcs skip_existing db1 with
      | none => none
      | some (rs, db2) => some (r :: rs, db2)

/-! ## Concrete inputs used by the theorems below -/

/-- An adventure-path file whose read raises. -/
def c1ErrEnv : FileEnv :=
  { fileName := "The Great Adventure.md", filePath := "The Great Adventure.md",
    readContent := .error "FileNotFoundError" }

/-- An adventure-path file whose processing completes normally. -/
def c1OkEnv : FileEnv :=
  { fileName := "Adventure Path.md", filePath := "Adventure Path.md",
    readContent := .ok "Hello world.", embedOutcome := .ok [0] }

/-- Hit matrix for four chunks against the ten stat-block patterns:
chunk 0 and 2 match nothing; chunk 1 matches the STR and DEX patterns
(`"STR 14, DEX 12"`); chunk 3 matches the hit-point and armor-class patterns. -/
def c3Hits : List (List Bool) :=
  [List.replicate 10 false,
   [true, true, false, false, false, false, false, false, false, false],
   List.replicate 10 false,
   [false, false, false, false, false, false, true, true, false, false]]

/-- Configuration for the idempotency scenario (extraction off, so the second
run's NPC count is trivially zero, matching the claim's scenario). -/
def c4cfg : Config := { enable_npc_extraction := false }

/-- A rulebook file that imports successfully: one chunk, one embedding. -/
def c4env : FileEnv :=
  { fileName := "Core Rulebook.md", filePath := "Core Rulebook.md",
    readContent := .ok "Hello world.", embedOutcome := .ok [0] }

/-- A candidate record with confidence 0.5. -/
def cand05 : PyDict :=
  [("name", Value.str "Low"), ("confidence_score", Value.num ratPoint5)]

/-- A candidate record with confidence exactly 0.7. -/
def cand07 : PyDict :=
  [("name", Value.str "Boundary"), ("confidence_score", Value.num ratPoint7)]

/-- A parsed record-list response holding one above-threshold record and one
malformed (non-record) element. -/
def c6Resp : Value := Value.arr [Value.obj cand07, Value.str "junk"]

/-- A file whose read raises. -/
def c8ErrEnv : FileEnv :=
  { fileName := "f.md", filePath := "f.md", readContent := .error "boom" }

/-- Environment for file `a.md`: read succeeds, one chunk, one embedding. -/
def c9EnvA : FileEnv :=
  { fileName := "a.md", filePath := "a.md",
    readContent := .ok "Hi.", embedOutcome := .ok [0] }

/-- Environment for file `b.md`: read succeeds, one chunk, one embedding. -/
def c9EnvB : FileEnv :=
  { fileName := "b.md", filePath := "b.md",
    readContent := .ok "Hi.", embedOutcome := .ok [0] }

/-! ## Helper lemmas -/

theorem ratPoint8_eq : ratPoint8 = 8 / 10 := by
  rw [ratPoint8, Rat.mk'_eq_divInt, Rat.divInt_eq_div]; norm_num

theorem ratPoint7_eq : ratPoint7 = 7 / 10 := by
  rw [ratPoint7, Rat.mk'_eq_divInt, Rat.divInt_eq_div]; norm_num

theorem ratPoint5_eq : ratPoint5 = 5 / 10 := by
  rw [ratPoint5, Rat.mk'_eq_divInt, Rat.divInt_eq_div]; norm_num

/-- `strContains` agrees with list-infix containment. -/
theorem strContains_iff_isInfix (s sub : List Char) :
    strContains s sub = true ↔ sub <:+: s := by
  constructor
  · intro h
    simp only [strContains, List.any_eq_true, List.mem_range] at h
    obtain ⟨p, _, hm⟩ := h
    rw [matchesAt, decide_eq_true_eq] at hm
    obtain ⟨n, hn⟩ : ∃ n, n = sub.length := ⟨_, rfl⟩
    rw [← hn] at hm
    refine ⟨s.take p, (s.drop p).drop n, ?_⟩
    rw [← hm, List.append_assoc, List.take_append_drop, List.take_append_drop]
  · rintro ⟨t, u, rfl⟩
    simp only [strContains, List.any_eq_true, List.mem_range]
    refine ⟨t.length, by simp; omega, ?_⟩
    rw [matchesAt, decide_eq_true_eq, List.append_assoc, List.drop_left,
      List.take_left]

/-- The two collection names derived from one prefix differ. -/
theorem collections_ne (pfx : String) :
    collectionAdventurepaths pfx ≠ collectionRulebooks pfx := by
  intro h
  have hl := congrArg String.length h
  rw [collectionAdventurepaths, collectionRulebooks,
    String.length_append, String.length_append,
    show ("_adventurepaths" : String).length = 15 from rfl,
    show ("_rulebooks" : String).length = 10 from rfl] at hl
  omega

/-- Overriding the value stored under `k'` does not change lookups of a
different key. -/
theorem find?_override_ne (d : PyDict) (k k' : String) (v : Value) (h : k' ≠ k) :
    (d.map (fun kv => if kv.1 == k' then (k', v) else kv)).find?
        (fun kv => kv.1 == k) =
      d.find? (fun kv => kv.1 == k) := by
  induction d with
  | nil => rfl
  | cons kv rest ih =>
    rw [List.map_cons]
    by_cases h1 : (kv.1 == k') = true
    · have h2 : (kv.1 == k) = false := by
        have h1' : kv.1 = k' := by simpa using h1
        simp [h1', h]
      rw [if_pos h1,
        List.find?_cons_of_neg _ (by simp [h]),
        List.find?_cons_of_neg _ (by simp [h2])]
      exact ih
    · rw [if_neg h1]
      by_cases h2 : (kv.1 == k) = true
      · simp only [List.find?_cons, h2]
      · rw [Bool.not_eq_true] at h2
        simp only [List.find?_cons, h2]
        exact ih

/-- `dictInsert` with a different key does not change a lookup. -/
theorem dictGet?_dictInsert_ne (d : PyDict) (k k' : String) (v : Value)
    (h : k' ≠ k) : dictGet? (dictInsert d k' v) k = dictGet? d k := by
  unfold dictInsert dictGet?
  by_cases ha : d.any (fun kv => kv.1 == k') = true
  · rw [if_pos ha, find?_override_ne d k k' v h]
  · rw [if_neg ha, List.find?_append]
    cases hf : d.find? (fun kv => kv.1 == k) with
    | some p => simp [hf]
    | none =>
      have hk : (k' == k) = false := by simp [h]
      simp [hf, List.find?, hk]

/-- Folding inserts whose keys all differ from `k` does not change the lookup
of `k`. -/
theorem dictGet?_foldl_insert_ne (md : List (String × Value)) (k : String)
    (h : ∀ kv ∈ md, kv.1 ≠ k) :
    ∀ d : PyDict,
      dictGet? (md.foldl (fun d kv => dictInsert d kv.1 kv.2) d) k =
        dictGet? d k := by
  induction md with
  | nil => intro d; rfl
  | cons kv rest ih =>
    intro d
    simp only [List.foldl_cons]
    rw [ih (fun x hx => h x (List.mem_cons_of_mem kv hx)),
      dictGet?_dictInsert_ne d k kv.1 kv.2 (h kv (List.mem_cons_self kv rest))]

/-- A lookup into a dict literal `{base..., **md}` ignores `md` when none of
its keys is the looked-up key. -/
theorem dictGet?_pyDictOf_append (base md : List (String × Value)) (k : String)
    (h : ∀ kv ∈ md, kv.1 ≠ k) :
    dictGet? (pyDictOf (base ++ md)) k = dictGet? (pyDictOf base) k := by
  unfold pyDictOf
  rw [List.foldl_append]
  exact dictGet?_foldl_insert_ne md k h _

/-- Whatever branch `process_file` returns through, the result carries the
file's path. -/
theorem process_file_filePath (cfg : Config) (env : FileEnv) (x y : Bool)
    (db : Store) (r : ImportResult) (db' : Store)
    (h : process_file cfg env x y db = some (r, db')) :
    r.file_path = env.filePath := by
  unfold process_file at h
  repeat' split at h
  all_goals first
  | exact Option.noConfusion h
  | (simp only [Option.some.injEq, Prod.mk.injEq] at h
     rw [← h.1]
     try rfl)

/-! ## Claim theorems -/

/-- C2: the router sends a file to the adventure-paths collection iff the
lowercased filename contains the substring "adventure", and to the rulebooks
collection otherwise; in particular
`route("Curse of the Crimson Throne Adventure Path.md")` and
`route("session-adventure-notes.md")` are adventure paths while
`route("Core Rulebook.md")` is a rulebook. -/
theorem C2_router_adventure_iff :
    (∀ pfx name, determine_collection pfx name = collectionAdventurepaths pfx ↔
        "adventure".data <:+: (pyLower name).data) ∧
    (∀ pfx name, ¬ "adventure".data <:+: (pyLower name).data →
        determine_collection pfx name = collectionRulebooks pfx) ∧
    determine_collection "game" "Curse of the Crimson Throne Adventure Path.md"
      = collectionAdventurepaths "game" ∧
    determine_collection "game" "session-adventure-notes.md"
      = collectionAdventurepaths "game" ∧
    determine_collection "game" "Core Rulebook.md" = collectionRulebooks "game" := by
  refine ⟨?_, ?_, by decide, by decide, by decide⟩
  · intro pfx name
    unfold determine_collection is_adventure_path
    by_cases h : strContains (pyLower name).data "adventure".data = true
    · rw [if_pos h, ← strContains_iff_isInfix]
      exact ⟨fun _ => h, fun _ => rfl⟩
    · rw [if_neg h, ← strContains_iff_isInfix]
      exact ⟨fun he => absurd he.symm (collections_ne pfx),
             fun hc => absurd hc h⟩
  · intro pfx name h
    rw [← strContains_iff_isInfix] at h
    unfold determine_collection is_adventure_path
    rw [if_neg h]

/-- C2 witness: the iff applied at a concrete adventure filename. -/
theorem C2_router_adventure_iff_witness :
    determine_collection "game" "The Great Adventure.md"
      = collectionAdventurepaths "game" :=
  (C2_router_adventure_iff.1 "game" "The Great Adventure.md").mpr (by decide)

/-- C3: in `_identify_npc_chunks`, chunks 1 and 3 of `c3Hits` each match
exactly two of the ten patterns and qualify as potential, yet the grouping
loop separates them into two groups `[[1], [3]]` instead of bridging the
one-chunk gap into a single group `[[1, 3]]`: the merge condition
`i - current_group[-1] <= 1` only merges consecutive indices, contradicting
its own "Consecutive or one gap" comment and the specified one-gap
bridging. -/
theorem C3_gap_not_bridged :
    chunkPatternScore (c3Hits.getD 1 []) = 2 ∧
    chunkPatternScore (c3Hits.getD 3 []) = 2 ∧
    potentialChunks c3Hits = [1, 3] ∧
    identify_npc_chunks c3Hits = [[1], [3]] ∧
    identify_npc_chunks c3Hits ≠ [[1, 3]] := by decide

/-- C5: `chunk_text` does not terminate for every configuration with
`0 ≤ overlap < max_size`. On the text `"a bcd"` with `max_size = 3`,
`overlap = 1`, the word-boundary break lands exactly at `start + overlap`, so
the cursor update `start = end - overlap` returns the cursor to 0: the loop
body is a function of the cursor alone, hence the while loop never exits,
for any iteration bound. -/
theorem C5_chunker_nontermination :
    0 ≤ 1 ∧ 1 < 3 ∧
    chunkStep 3 1 "a bcd".data 0 = ("a".data, 0) ∧
    (∀ fuel, chunkLoop 3 1 "a bcd".data fuel 0 = none) ∧
    chunk_text 3 1 "a bcd".data = none := by
  refine ⟨by decide, by decide, by decide, ?_, by decide⟩
  intro fuel
  induction fuel with
  | zero => decide
  | succ n ih =>
    have hstep : (chunkStep 3 1 "a bcd".data 0).2 = 0 := by decide
    simp only [chunkLoop, hstep, ih]
    decide

/-- C10 counterexample: `create_chunks` spreads `**metadata` after the
positional fields, so a metadata key `chunk_index` overrides the chunk's
position: on the text `"ab"` (one chunk) with metadata
`{"chunk_index": 999}`, the single chunk dict reports `chunk_index = 999`,
not its position 0. -/
theorem C10_counterexample :
    (create_chunks 1000 200 "ab".data [("chunk_index", Value.int 999)]).map
        (fun cs => cs.map (fun d => dictGet? d "chunk_index")) =
      some [some (Value.int 999)] ∧
    Value.int 999 ≠ Value.int 0 := by decide

/-- C10 (amended): for every text and every metadata dict that does not
itself carry a `chunk_index` or `total_chunks` key (in particular the
orchestrator's `{"file_path": ...}`), every chunk dict produced by
`create_chunks` has `chunk_index` equal to its zero-based position and
`total_chunks` equal to the length of the returned list. -/
theorem C10_chunk_index_fields (chunkSize overlap : Nat) (text : List Char)
    (metadata : List (String × Value))
    (hk : ∀ kv ∈ metadata, kv.1 ≠ "chunk_index" ∧ kv.1 ≠ "total_chunks")
    (chunks : List PyDict)
    (h : create_chunks chunkSize overlap text metadata = some chunks)
    (i : Nat) (hi : i < chunks.length) :
    dictGet? (chunks.getD i []) "chunk_index" = some (Value.int i) ∧
    dictGet? (chunks.getD i []) "total_chunks" = some (Value.int chunks.length) := by
  unfold create_chunks at h
  cases htc : chunk_text chunkSize overlap text with
  | none => rw [htc] at h; exact absurd h (by simp)
  | some tcs =>
    rw [htc] at h
    simp only [Option.map_some', Option.some.injEq] at h
    subst h
    have hlen : (mkChunkDicts tcs metadata).length = tcs.length := by
      simp [mkChunkDicts, List.enum]
    rw [hlen] at hi
    have hget : (mkChunkDicts tcs metadata).getD i [] =
        pyDictOf ([("text", Value.str (String.mk (tcs.getD i []))),
                   ("chunk_index", Value.int i),
                   ("total_chunks", Value.int tcs.length)] ++ metadata) := by
      rw [List.getD_eq_getElem?_getD, List.getD_eq_getElem?_getD]
      unfold mkChunkDicts
      rw [List.getElem?_map, List.enum,
        List.getElem?_enumFrom, List.getElem?_eq_getElem hi]
      simp
    rw [hget, hlen,
      dictGet?_pyDictOf_append _ metadata "chunk_index"
        (fun kv hkv => (hk kv hkv).1),
      dictGet?_pyDictOf_append _ metadata "total_chunks"
        (fun kv hkv => (hk kv hkv).2)]
    exact ⟨rfl, rfl⟩

/-- C10 witness: the amended theorem at the orchestrator's own metadata. -/
theorem C10_chunk_index_fields_witness :
    dictGet? (((create_chunks 1000 200 "ab".data
        [("file_path", Value.str "p")]).getD []).getD 0 []) "chunk_index" =
      some (Value.int 0) ∧
    dictGet? (((create_chunks 1000 200 "ab".data
        [("file_path", Value.str "p")]).getD []).getD 0 []) "total_chunks" =
      some (Value.int 1) :=
  C10_chunk_index_fields 1000 200 "ab".data [("file_path", Value.str "p")]
    (by decide) _ rfl 0 (by decide)

/-- C1 counterexample: for an adventure-path document whose read raises,
`process_file` with `extract_npcs = True` returns a result with
`skipped_npc_extraction = False` (the flag is only set on the path that
actually reaches the gating), so the claim's universally-stated
`skipped_npc_extraction == True` fails. -/
theorem C1_counterexample :
    is_adventure_path "The Great Adventure.md" = true ∧
    process_file {} c1ErrEnv true false [] =
      some (failedResult "The Great Adventure.md" "FileNotFoundError", []) ∧
    (failedResult "The Great Adventure.md" "FileNotFoundError").skipped_npc_extraction
      = false ∧
    (failedResult "The Great Adventure.md" "FileNotFoundError").npcs_extracted = 0 := by
  decide

/-- C1 (amended): for every adventure-path document, `process_file` with
`extract_npcs = True` always reports `npcs_extracted = 0`, and whenever the
result is successful and the document was not skipped as already imported,
`skipped_npc_extraction = True` — NPC extraction is skipped unconditionally
for adventure paths, overriding the per-call flag. -/
theorem C1_adventure_gating (cfg : Config) (env : FileEnv) (sk : Bool)
    (db : Store) (hap : is_adventure_path env.fileName = true)
    (r : ImportResult) (db' : Store)
    (hr : process_file cfg env true sk db = some (r, db')) :
    r.npcs_extracted = 0 ∧
    (r.success = true → r.skipped_existing = false →
      r.skipped_npc_extraction = true) := by
  unfold process_file at hr
  split at hr
  · -- skipped-existing branch
    simp only [Option.some.injEq, Prod.mk.injEq] at hr
    rw [← hr.1]
    exact ⟨rfl, fun _ hse => absurd hse (by simp)⟩
  · split at hr
    · -- read error
      simp only [Option.some.injEq, Prod.mk.injEq] at hr
      rw [← hr.1]
      exact ⟨rfl, fun hs _ => absurd hs (by simp [failedResult])⟩
    · split at hr
      · exact absurd hr (by simp)
      · split at hr
        · -- no chunks
          simp only [Option.some.injEq, Prod.mk.injEq] at hr
          rw [← hr.1]
          exact ⟨rfl, fun hs _ => absurd hs (by simp [failedResult])⟩
        · split at hr
          · -- embedding error
            simp only [Option.some.injEq, Prod.mk.injEq] at hr
            rw [← hr.1]
            exact ⟨rfl, fun hs _ => absurd hs (by simp [failedResult])⟩
          · split at hr
            · -- insert_chunks error
              simp only [Option.some.injEq, Prod.mk.injEq] at hr
              rw [← hr.1]
              exact ⟨rfl, fun hs _ => absurd hs (by simp [failedResult])⟩
            · -- inserted; the adventure-path test is decided by hap
              simp only [hap, if_true, Option.some.injEq, Prod.mk.injEq] at hr
              rw [← hr.1]
              exact ⟨rfl, fun _ _ => rfl⟩

/-- C1 witness: the amended theorem at a successfully processed
adventure-path file. -/
theorem C1_adventure_gating_witness :
    ((process_file {} c1OkEnv true false []).getD
        (failedResult "" "", [])).1.npcs_extracted = 0 ∧
    (((process_file {} c1OkEnv true false []).getD
        (failedResult "" "", [])).1.success = true →
      ((process_file {} c1OkEnv true false []).getD
        (failedResult "" "", [])).1.skipped_existing = false →
      ((process_file {} c1OkEnv true false []).getD
        (failedResult "" "", [])).1.skipped_npc_extraction = true) :=
  C1_adventure_gating {} c1OkEnv false [] (by decide) _ _ rfl

/-- C4: the idempotency check never fires. `insert_chunks` stores
`file_path` at the payload's top level with `metadata = {}` (the chunk dicts
of `create_chunks` have no `metadata` key), while `_file_already_imported`
filters on the dot path `metadata.file_path`; the filter therefore matches
nothing the importer ever wrote. Re-ingesting the same path with
`skip_if_exists = True` after a successful first ingestion is NOT skipped:
the second run reports `skipped_existing = false`, imports 1 chunk again,
and the store grows from 1 to 2 records. -/
theorem C4_idempotency_check_misses :
    ((process_file c4cfg c4env true true []).bind (fun p1 =>
        (process_file c4cfg c4env true true p1.2).map (fun p2 =>
          (p1.1.success, p1.1.chunks_imported, p1.2.length,
           p2.1.skipped_existing, p2.1.success, p2.1.chunks_imported,
           p2.1.npcs_extracted, p2.2.length)))) =
      some (true, 1, 1, false, true, 1, 0, 2) ∧
    file_already_imported false c4cfg.collectionPfx
        ((process_file c4cfg c4env true true []).getD
          (failedResult "" "", [])).2
        c4env.fileName c4env.filePath = false :=
  ⟨by rfl, by decide⟩

/-- C6 counterexample: in a parsed record-list response, a candidate whose
fallback-completed confidence meets the threshold (`keptB` holds at 0.7
against threshold 0.7) is nonetheless absent from the extractor's output when
a sibling list element is malformed — the dynamic error aborts the whole
window and the `except` returns `[]` — so "kept iff confidence ≥ threshold"
fails as stated. -/
theorem C6_counterexample :
    keptB ratPoint7 (Value.obj cand07) = true ∧
    extract_npc_from_text ratPoint7 "f.md" "text".data (.parsed c6Resp) = [] := by
  decide

/-- The conversion loop keeps exactly the above-threshold candidates, in
order, when every element is a record with a comparable (or missing)
confidence. -/
theorem convertNpcList_eq_filter (threshold : ℚ) (src : String)
    (text : List Char) :
    ∀ items : List Value, (∀ v ∈ items, (candConf v).isOk = true) →
      convertNpcList threshold src text items =
        .ok ((items.filter (keptB threshold)).map (mkNpc src text)) := by
  intro items
  induction items with
  | nil => intro _; rfl
  | cons v rest ih =>
    intro hw
    have hv := hw v (List.mem_cons_self v rest)
    have hrest := ih (fun x hx => hw x (List.mem_cons_of_mem v hx))
    cases v with
    | obj d =>
      cases hc : confidenceOf d with
      | error e => simp [candConf, hc, Except.isOk, Except.toBool] at hv
      | ok q =>
        simp only [convertNpcList, hc]
        by_cases hlt : q < threshold
        · have hkept : keptB threshold (Value.obj d) = false := by
            simp only [keptB, candConf, hc]
            simpa using hlt
          rw [if_pos hlt, hrest, List.filter_cons_of_neg (by simp [hkept])]
        · have hkept : keptB threshold (Value.obj d) = true := by
            simp only [keptB, candConf, hc]
            simpa using not_lt.mp hlt
          have hmk : mkNpc src text (Value.obj d) = npcFromDict d src text q := by
            simp only [mkNpc, hc]
            rfl
          rw [if_neg hlt, hrest, List.filter_cons_of_pos (by simp [hkept]),
            List.map_cons, hmk]
    | null => simp [candConf, Except.isOk, Except.toBool] at hv
    | bool b => simp [candConf, Except.isOk, Except.toBool] at hv
    | int n => simp [candConf, Except.isOk, Except.toBool] at hv
    | num q => simp [candConf, Except.isOk, Except.toBool] at hv
    | str s => simp [candConf, Except.isOk, Except.toBool] at hv
    | arr l => simp [candConf, Except.isOk, Except.toBool] at hv

/-- C6 (amended): when every element of the normalized record list is a
record object with a comparable (or missing, fallback 0.8) confidence, a
candidate is kept iff its confidence is ≥ the threshold (inclusive); at
threshold 0.7 a 0.5-confidence candidate is dropped and a 0.7-confidence
candidate is kept. -/
theorem C6_confidence_filter :
    (∀ (threshold : ℚ) (src : String) (text : List Char)
        (items : List Value), (∀ v ∈ items, (candConf v).isOk = true) →
      convertNpcList threshold src text items =
        .ok ((items.filter (keptB threshold)).map (mkNpc src text))) ∧
    extract_npc_from_text ratPoint7 "f.md" "text".data
        (.parsed (Value.arr [Value.obj cand05])) = [] ∧
    extract_npc_from_text ratPoint7 "f.md" "text".data
        (.parsed (Value.arr [Value.obj cand07])) =
      [npcFromDict cand07 "f.md" "text".data ratPoint7] := by
  exact ⟨convertNpcList_eq_filter, by decide, by decide⟩

/-- C6 witness: the filter equation applied at the two boundary candidates. -/
theorem C6_confidence_filter_witness :
    convertNpcList ratPoint7 "f.md" "text".data
        [Value.obj cand05, Value.obj cand07] =
      .ok [npcFromDict cand07 "f.md" "text".data ratPoint7] := by
  rw [C6_confidence_filter.1 ratPoint7 "f.md" "text".data
    [Value.obj cand05, Value.obj cand07] (by decide)]
  rfl

/-- C7: a transport error, malformed JSON, or a parsed JSON value of any
shape other than a record list, a wrapper object holding a list under
`npcs`, or a single record object, makes `_extract_npc_from_text` return `[]`
for that window; the function is total, so no such error reaches the
caller. -/
theorem C7_fail_soft :
    (∀ (threshold : ℚ) (src : String) (text : List Char) (msg : String),
      extract_npc_from_text threshold src text (.transportError msg) = []) ∧
    (∀ (threshold : ℚ) (src : String) (text : List Char) (msg : String),
      extract_npc_from_text threshold src text (.parseError msg) = []) ∧
    (∀ (threshold : ℚ) (src : String) (text : List Char) (v : Value),
      goodShapeB v = false →
        extract_npc_from_text threshold src text (.parsed v) = []) := by
  refine ⟨fun _ _ _ _ => rfl, fun _ _ _ _ => rfl, ?_⟩
  intro threshold src text v hv
  rw [extract_npc_from_text]
  cases v with
  | obj l =>
    rw [goodShapeB] at hv
    rw [extractBody, normalizeShape]
    by_cases hn : objHasKey l "npcs" = true
    · rw [if_pos hn] at hv ⊢
      cases hg : dictGet? l "npcs" with
      | none => rfl
      | some w => cases w <;> simp_all
    · rw [if_neg hn] at hv ⊢
      rw [if_neg (by simp [hv])]
      rfl
  | arr items => rw [goodShapeB] at hv; exact absurd hv (by simp)
  | null => rfl
  | bool b => rfl
  | int n => rfl
  | num q => rfl
  | str s => rfl

/-- C7 witness: the fail-soft theorem at a concrete bad shape. -/
theorem C7_fail_soft_witness :
    extract_npc_from_text ratPoint7 "f.md" [] (.parsed (Value.str "oops")) = [] :=
  C7_fail_soft.2.2 ratPoint7 "f.md" [] (Value.str "oops") (by decide)

/-- C8: any raise while reading, embedding, upserting (including the
chunk/embedding count mismatch raised inside `insert_chunks`), or extracting
(the composed call hands the chunk dicts to `extract_npcs_from_chunks`, whose
first `re.search` raises `TypeError` deterministically) is caught by
`process_file`, which returns an unsuccessful result carrying the error
message; and a directory batch produces exactly one result per enumerated
file — a failing file never shortens the batch. -/
theorem C8_failure_isolation :
    (∀ (cfg : Config) (env : FileEnv) (db : Store) (e : String),
      env.readContent = .error e →
      process_file cfg env true false db =
        some (failedResult env.filePath e, db)) ∧
    (∀ (cfg : Config) (env : FileEnv) (db : Store) (content : String)
        (chunks : List PyDict) (e : String),
      env.readContent = .ok content →
      create_chunks cfg.chunk_size cfg.chunk_overlap content.data
        [("file_path", Value.str env.filePath)] = some chunks →
      chunks.isEmpty = false →
      env.embedOutcome = .error e →
      process_file cfg env true false db =
        some (failedResult env.filePath e, db)) ∧
    (∀ (cfg : Config) (env : FileEnv) (db : Store) (content : String)
        (chunks : List PyDict) (embeddings : List Nat) (e : String),
      env.readContent = .ok content →
      create_chunks cfg.chunk_size cfg.chunk_overlap content.data
        [("file_path", Value.str env.filePath)] = some chunks →
      chunks.isEmpty = false →
      env.embedOutcome = .ok embeddings →
      insert_chunks cfg.collectionPfx chunks embeddings env.fileName
        env.filePath env.upsertChunksOutcome = .error e →
      process_file cfg env true false db =
        some (failedResult env.filePath e, db)) ∧
    (∀ (cfg : Config) (env : FileEnv) (db : Store) (content : String)
        (chunks : List PyDict) (embeddings : List Nat)
        (points : List (String × Payload)) (n : Nat),
      env.readContent = .ok content →
      create_chunks cfg.chunk_size cfg.chunk_overlap content.data
        [("file_path", Value.str env.filePath)] = some chunks →
      chunks.isEmpty = false →
      env.embedOutcome = .ok embeddings →
      insert_chunks cfg.collectionPfx chunks embeddings env.fileName
        env.filePath env.upsertChunksOutcome = .ok (points, n) →
      is_adventure_path env.fileName = false →
      cfg.enable_npc_extraction = true →
      process_file cfg env true false db =
        some (failedResult env.filePath
          "TypeError: expected string or bytes-like object",
          db ++ points)) ∧
    (∀ (cfg : Config) (envs : List FileEnv) (x y : Bool) (db : Store)
        (rs : List ImportResult) (db2 : Store),
      process_directory cfg envs x y db = some (rs, db2) →
      rs.length = envs.length) := by
  refine ⟨?_, ?_, ?_, ?_, ?_⟩
  · intro cfg env db e h
    simp [process_file, h]
  · intro cfg env db content chunks e h1 h2 h3 h4
    simp [process_file, h1, h2, h3, h4]
  · intro cfg env db content chunks embeddings e h1 h2 h3 h4 h5
    simp [process_file, h1, h2, h3, h4, h5]
  · intro cfg env db content chunks embeddings points n h1 h2 h3 h4 h5 h6 h7
    simp [process_file, h1, h2, h3, h4, h5, h6, h7, extract_npcs_from_chunks]
  · intro cfg envs x y
    induction envs with
    | nil =>
      intro db rs db2 h
      simp only [process_directory, Option.some.injEq, Prod.mk.injEq] at h
      rw [← h.1]
      rfl
    | cons env rest ih =>
      intro db rs db2 h
      unfold process_directory at h
      split at h
      · exact absurd h (by simp)
      · split at h
        · exact absurd h (by simp)
        · rename_i rs2 dbq hd
          simp only [Option.some.injEq, Prod.mk.injEq] at h
          rw [← h.1]
          simp [ih _ rs2 dbq hd]

/-- C8 witness: the extraction-stage failure conjunct at a concrete run —
a non-adventure file with extraction enabled reaches the extraction call,
which raises, and the document is reported failed with the error message
while the chunk records stay upserted. -/
theorem C8_failure_isolation_witness :
    process_file {} c4env true false [] =
      some (failedResult "Core Rulebook.md"
          "TypeError: expected string or bytes-like object",
        [("game_rulebooks",
          { text := Value.str "Hello world.",
            file_path := "Core Rulebook.md",
            page_number := Value.null,
            chunk_index := Value.int 0,
            metadata := Value.obj [] })]) :=
  C8_failure_isolation.2.2.2.1 {} c4env [] "Hello world."
    ((create_chunks 1000 200 "Hello world.".data
        [("file_path", Value.str "Core Rulebook.md")]).getD [])
    [0] _ _ rfl rfl (by decide) rfl rfl (by decide) rfl

/-- C9 counterexample: `process_directory` applies no sort — it processes in
enumeration (glob) order. The same two files presented in the orders
`[b, a]` and `[a, b]` are processed in exactly those orders, so the
processing order depends on the enumeration: for the first enumeration it is
`["b.md", "a.md"]`, not the deterministic sorted order `["a.md", "b.md"]`
the claim requires. -/
theorem C9_counterexample :
    ((process_directory {} [c9EnvB, c9EnvA] true false []).map
        (fun p => p.1.map (fun r => r.file_path))) = some ["b.md", "a.md"] ∧
    ((process_directory {} [c9EnvA, c9EnvB] true false []).map
        (fun p => p.1.map (fun r => r.file_path))) = some ["a.md", "b.md"] ∧
    (["b.md", "a.md"] : List String) ≠ ["a.md", "b.md"] :=
  ⟨by rfl, by rfl, by decide⟩

/-- C9 (amended): `process_directory` processes the enumerated files in
enumeration (glob) order, without the deterministic sort the claim describes
(sorting exists only in `MarkdownProcessor.find_markdown_files`, which
`process_directory` does not call), and returns exactly one result per file
in that same order: the i-th result carries the i-th enumerated path. -/
theorem C9_enumeration_order (cfg : Config) (envs : List FileEnv)
    (x y : Bool) (db : Store) (rs : List ImportResult) (db2 : Store)
    (h : process_directory cfg envs x y db = some (rs, db2)) :
    rs.map (fun r => r.file_path) = envs.map (fun env => env.filePath) := by
  induction envs generalizing db rs db2 with
  | nil =>
    simp only [process_directory, Option.some.injEq, Prod.mk.injEq] at h
    rw [← h.1]
    rfl
  | cons env rest ih =>
    unfold process_directory at h
    split at h
    · exact absurd h (by simp)
    · rename_i r1 db1 hf
      split at h
      · exact absurd h (by simp)
      · rename_i rs2 dbq hd
        simp only [Option.some.injEq, Prod.mk.injEq] at h
        rw [← h.1]
        simp only [List.map_cons]
        rw [process_file_filePath cfg env x y db r1 db1 hf, ih db1 rs2 dbq hd]

/-- C9 witness: the amended order theorem at a concrete one-file batch. -/
theorem C9_enumeration_order_witness :
    (((process_directory {} [c9EnvA] true false []).getD ([], [])).1).map
        (fun r => r.file_path) = ["a.md"] :=
  C9_enumeration_order {} [c9EnvA] true false []
    ((process_directory {} [c9EnvA] true false []).getD ([], [])).1
    ((process_directory {} [c9EnvA] true false []).getD ([], [])).2 rfl

end MdImport

